import Mathlib

/-!
Shallow embedding of the WebAssembly instruction-selection hooks in
`llvm/lib/Target/WebAssembly/WebAssemblyISelDAGToDAG.cpp`:
the custom node selector `WebAssemblyDAGToDAGISel::Select` and the
inline-assembly constraint binder
`WebAssemblyDAGToDAGISel::SelectInlineAsmMemoryOperand`.

Input DAG values are modelled as opaque identifiers; a node is modelled by
the fields the selector actually reads (opcode class, chain operand,
constant sync-scope operand, intrinsic identifier, global variable and
offset).  The result of one `Select` invocation is modelled explicitly:
either the node was already machine-level, or it was replaced by a
machine-node tree via `ReplaceNode`, or a fatal diagnostic was raised, or
the node fell through to the table-driven matcher (`SelectCode`).
-/

namespace WasmISel

/-- Machine value types used by the selector (`MVT::i32`, `MVT::Other`). -/
inductive MVT where
  | i32
  | Other
deriving DecidableEq

/-- The WebAssembly machine opcodes constructed by the custom selector. -/
inductive MachineOpcode where
  | COMPILER_FENCE
  | ATOMIC_FENCE
  | GLOBAL_GET_I32
  | CONST_I32
  | ADD_I32
deriving DecidableEq

/-- A value of the input DAG, identified opaquely. -/
abbrev SDValue := Nat

/-- A non-node operand of a freshly created machine node: an existing value
of the input graph, a target constant, a target external symbol, or a
target global address with an offset. -/
inductive MBase where
  | existing (v : SDValue)
  | tconst (val : Nat) (ty : MVT)
  | tsym (name : String) (ty : MVT)
  | tglobal (name : String) (offset : Int) (ty : MVT)
deriving DecidableEq

/-- A freshly created machine node all of whose operands are base operands
(the inner nodes of the TLS lowering sequence have this shape). -/
structure MLeaf where
  op : MachineOpcode
  vts : List MVT
  ops : List MBase
deriving DecidableEq

/-- An operand of the root replacement node: a base operand or a result
value of a nested freshly created machine node. -/
inductive MValue where
  | base (b : MBase)
  | sub (n : MLeaf) (res : Nat)
deriving DecidableEq

/-- The root machine node installed by `ReplaceNode`. -/
structure MNode where
  op : MachineOpcode
  vts : List MVT
  ops : List MValue
deriving DecidableEq

/-- Thread-local storage modes of `GlobalValue`. -/
inductive TLSModel where
  | NotThreadLocal
  | GeneralDynamic
  | LocalDynamic
  | InitialExec
  | LocalExec
deriving DecidableEq

/-- The part of a global variable the selector reads: its name and its
thread-local mode. -/
structure GlobalVariable where
  name : String
  threadLocalMode : TLSModel
deriving DecidableEq

/-- The target facts the selector consults. -/
structure WebAssemblySubtarget where
  hasAtomics : Bool
  hasBulkMemory : Bool
  hasAddr64 : Bool
  isOSEmscripten : Bool
deriving DecidableEq

/-- Intrinsic identifiers distinguished by the selector. -/
inductive IntrinsicID where
  | wasm_tls_size
  | wasm_tls_align
  | wasm_tls_base
  | otherIntrinsic (n : Nat)
deriving DecidableEq

/-- Synchronization scope identifiers (`SyncScope::SingleThread = 0`,
`SyncScope::System = 1`). -/
def SyncScope.SingleThread : Nat := 0

/-- The system-wide synchronization scope identifier. -/
def SyncScope.System : Nat := 1

/-- An input DAG node, as projected onto the fields the custom selector
reads.  `machine` covers every node for which `isMachineOpcode()` holds;
`generic` covers every generic opcode without a custom rule. -/
inductive SDNode where
  | machine (op : MachineOpcode) (operands : List SDValue)
  | atomicFence (inchain : SDValue) (order : Nat) (ssid : Nat)
  | globalTLSAddress (GA : GlobalVariable) (offset : Int)
  | intrinsicWoChain (IntNo : IntrinsicID) (args : List SDValue)
  | intrinsicWChain (inchain : SDValue) (IntNo : IntrinsicID) (args : List SDValue)
  | generic (opcode : Nat) (operands : List SDValue)
deriving DecidableEq

/-- Result of one invocation of `Select` on a node. -/
inductive SelectResult where
  | alreadySelected
  | replaced (root : MNode) (removedDeadNode : Bool)
  | fatal (msg : String)
  | llvm_unreachable (msg : String)
  | selectCode
deriving DecidableEq

/-- `WebAssemblyDAGToDAGISel::Select`, embedded.  Each branch mirrors the
corresponding `case` of the source switch; falling off the switch is
`selectCode` (the call to the table-generated `SelectCode`). -/
def Select (Subtarget : WebAssemblySubtarget) (Node : SDNode) : SelectResult :=
  match Node with
  | SDNode.machine _ _ => SelectResult.alreadySelected
  | SDNode.atomicFence inchain _order SyncScopeID =>
      if !Subtarget.hasAtomics then SelectResult.selectCode
      else if SyncScopeID = SyncScope.SingleThread then
        SelectResult.replaced
          ⟨MachineOpcode.COMPILER_FENCE, [MVT.Other],
            [MValue.base (MBase.existing inchain)]⟩
          true
      else if SyncScopeID = SyncScope.System then
        SelectResult.replaced
          ⟨MachineOpcode.ATOMIC_FENCE, [MVT.Other],
            [MValue.base (MBase.tconst 0 MVT.i32),
             MValue.base (MBase.existing inchain)]⟩
          true
      else SelectResult.llvm_unreachable "Unknown scope!"
  | SDNode.globalTLSAddress GA offset =>
      if !Subtarget.hasBulkMemory then
        SelectResult.fatal "cannot use thread-local storage without bulk memory"
      else if GA.threadLocalMode ≠ TLSModel.LocalExec ∧
              Subtarget.isOSEmscripten = false then
        SelectResult.fatal
          ("only -ftls-model=local-exec is supported for now on non-Emscripten OSes: variable "
            ++ GA.name)
      else
        SelectResult.replaced
          ⟨MachineOpcode.ADD_I32, [MVT.i32],
            [MValue.sub
              ⟨MachineOpcode.GLOBAL_GET_I32, [MVT.i32],
                [MBase.tsym "__tls_base" MVT.i32]⟩ 0,
             MValue.sub
              ⟨MachineOpcode.CONST_I32, [MVT.i32],
                [MBase.tglobal GA.name offset MVT.i32]⟩ 0]⟩
          false
  | SDNode.intrinsicWoChain IntNo _args =>
      match IntNo with
      | IntrinsicID.wasm_tls_size =>
          SelectResult.replaced
            ⟨MachineOpcode.GLOBAL_GET_I32, [MVT.i32],
              [MValue.base (MBase.tsym "__tls_size" MVT.i32)]⟩
            false
      | IntrinsicID.wasm_tls_align =>
          SelectResult.replaced
            ⟨MachineOpcode.GLOBAL_GET_I32, [MVT.i32],
              [MValue.base (MBase.tsym "__tls_align" MVT.i32)]⟩
            false
      | _ => SelectResult.selectCode
  | SDNode.intrinsicWChain inchain IntNo _args =>
      match IntNo with
      | IntrinsicID.wasm_tls_base =>
          SelectResult.replaced
            ⟨MachineOpcode.GLOBAL_GET_I32, [MVT.i32, MVT.Other],
              [MValue.base (MBase.tsym "__tls_base" MVT.i32),
               MValue.base (MBase.existing inchain)]⟩
            false
      | _ => SelectResult.selectCode
  | SDNode.generic _ _ => SelectResult.selectCode

/-- Inline-assembly constraint identifiers: `Constraint_i`, `Constraint_m`,
and everything else. -/
inductive ConstraintID where
  | i
  | m
  | otherConstraint (n : Nat)
deriving DecidableEq

/-- `WebAssemblyDAGToDAGISel::SelectInlineAsmMemoryOperand`, embedded.
Returns the C++ return value (`true` means failure) together with the
`OutOps` vector after the call. -/
def SelectInlineAsmMemoryOperand (Op : SDValue) (CID : ConstraintID)
    (OutOps : List SDValue) : Bool × List SDValue :=
  match CID with
  | ConstraintID.i => (false, OutOps ++ [Op])
  | ConstraintID.m => (false, OutOps ++ [Op])
  | ConstraintID.otherConstraint _ => (true, OutOps)

/-- Whether a `Select` outcome installed a replacement via `ReplaceNode`. -/
def SelectResult.isReplacement : SelectResult → Bool
  | SelectResult.replaced _ _ => true
  | _ => false

/-- Whether a `Select` outcome aborted compilation (a `report_fatal_error`
or an `llvm_unreachable`). -/
def SelectResult.isFatal : SelectResult → Bool
  | SelectResult.fatal _ => true
  | SelectResult.llvm_unreachable _ => true
  | _ => false

/-- `SDNode::isMachineOpcode`. -/
def SDNode.isMachineOpcode : SDNode → Bool
  | SDNode.machine _ _ => true
  | _ => false

/-- Whether a machine opcode occurs in a root operand. -/
def MValue.usesMachineOp : MValue → MachineOpcode → Bool
  | MValue.base _, _ => false
  | MValue.sub l _, op => l.op = op

/-- Whether a machine opcode occurs anywhere in a replacement tree. -/
def MNode.usesMachineOp (n : MNode) (op : MachineOpcode) : Bool :=
  n.op = op || n.ops.any (fun v => v.usesMachineOp op)

/-- Number of nodes of a list on which `Select` installs a replacement. -/
def countReplacements (Subtarget : WebAssemblySubtarget)
    (nodes : List SDNode) : Nat :=
  (nodes.filter (fun n => (Select Subtarget n).isReplacement)).length

/-- Whether running the selector over a list of nodes raises no fatal
diagnostic. -/
def driverSucceeds (Subtarget : WebAssemblySubtarget)
    (nodes : List SDNode) : Bool :=
  nodes.all (fun n => !(Select Subtarget n).isFatal)

/-- `SelectionDAG::ReplaceAllUsesWith`, restricted to what the claims
need: every occurrence of the replaced value in any user operand list is
redirected to the new value. -/
def ReplaceNodeUses (oldV newV : SDValue)
    (users : List (List SDValue)) : List (List SDValue) :=
  users.map (List.map (fun v => if v = oldV then newV else v))

/-- C1 counterexample: on a target without atomics support, a
single-thread atomic fence is not replaced with a `COMPILER_FENCE`; the
custom rule declines and the node falls through to the table-driven
matcher, refuting the claim for "any target". -/
theorem fence_singlethread_counterexample :
    Select ⟨false, true, false, false⟩
        (SDNode.atomicFence 7 0 SyncScope.SingleThread) =
      SelectResult.selectCode ∧
    Select ⟨false, true, false, false⟩
        (SDNode.atomicFence 7 0 SyncScope.SingleThread) ≠
      SelectResult.replaced
        ⟨MachineOpcode.COMPILER_FENCE, [MVT.Other],
          [MValue.base (MBase.existing 7)]⟩
        true := by
  constructor
  · rfl
  · decide

/-- C1 (amended): on a target with atomics support, a single-thread atomic
fence is replaced with a single `COMPILER_FENCE` node whose sole operand
is the chain input of the original node, and no hardware fence opcode
(`ATOMIC_FENCE`) occurs anywhere in the replacement. -/
theorem fence_singlethread_compiler_barrier
    (Subtarget : WebAssemblySubtarget) (inchain : SDValue) (order : Nat)
    (h : Subtarget.hasAtomics = true) :
    Select Subtarget (SDNode.atomicFence inchain order SyncScope.SingleThread) =
      SelectResult.replaced
        ⟨MachineOpcode.COMPILER_FENCE, [MVT.Other],
          [MValue.base (MBase.existing inchain)]⟩
        true ∧
    MNode.usesMachineOp
        ⟨MachineOpcode.COMPILER_FENCE, [MVT.Other],
          [MValue.base (MBase.existing inchain)]⟩
        MachineOpcode.ATOMIC_FENCE = false := by
  refine ⟨?_, ?_⟩
  · simp [Select, h]
  · simp [MNode.usesMachineOp, MValue.usesMachineOp]

/-- Witness for C1 (amended) at a concrete target and chain value. -/
theorem fence_singlethread_compiler_barrier_witness :
    (⟨true, true, false, false⟩ : WebAssemblySubtarget).hasAtomics = true ∧
    Select ⟨true, true, false, false⟩
        (SDNode.atomicFence 3 0 SyncScope.SingleThread) =
      SelectResult.replaced
        ⟨MachineOpcode.COMPILER_FENCE, [MVT.Other],
          [MValue.base (MBase.existing 3)]⟩
        true :=
  ⟨rfl, (fence_singlethread_compiler_barrier ⟨true, true, false, false⟩ 3 0 rfl).1⟩

/-- C2: on a target with atomics support, a system-scope atomic fence is
replaced with exactly one hardware `ATOMIC_FENCE` node whose ordering
operand is the target constant 0 (sequentially consistent) and whose chain
operand is the chain input of the original node. -/
theorem fence_system_hardware_fence
    (Subtarget : WebAssemblySubtarget) (inchain : SDValue) (order : Nat)
    (h : Subtarget.hasAtomics = true) :
    Select Subtarget (SDNode.atomicFence inchain order SyncScope.System) =
      SelectResult.replaced
        ⟨MachineOpcode.ATOMIC_FENCE, [MVT.Other],
          [MValue.base (MBase.tconst 0 MVT.i32),
           MValue.base (MBase.existing inchain)]⟩
        true := by
  simp [Select, h, SyncScope.System, SyncScope.SingleThread]

/-- Witness for C2 at a concrete target and chain value. -/
theorem fence_system_hardware_fence_witness :
    (⟨true, true, false, false⟩ : WebAssemblySubtarget).hasAtomics = true ∧
    Select ⟨true, true, false, false⟩
        (SDNode.atomicFence 5 0 SyncScope.System) =
      SelectResult.replaced
        ⟨MachineOpcode.ATOMIC_FENCE, [MVT.Other],
          [MValue.base (MBase.tconst 0 MVT.i32),
           MValue.base (MBase.existing 5)]⟩
        true :=
  ⟨rfl, fence_system_hardware_fence ⟨true, true, false, false⟩ 5 0 rfl⟩

/-- C8: on a target with atomics support, an atomic fence whose sync-scope
operand is neither the single-thread value nor the system value hits
`llvm_unreachable` and produces no replacement. -/
theorem fence_unknown_scope_unreachable
    (Subtarget : WebAssemblySubtarget) (inchain : SDValue) (order ssid : Nat)
    (h : Subtarget.hasAtomics = true)
    (h1 : ssid ≠ SyncScope.SingleThread) (h2 : ssid ≠ SyncScope.System) :
    Select Subtarget (SDNode.atomicFence inchain order ssid) =
      SelectResult.llvm_unreachable "Unknown scope!" ∧
    (Select Subtarget (SDNode.atomicFence inchain order ssid)).isReplacement =
      false := by
  have hsel :
      Select Subtarget (SDNode.atomicFence inchain order ssid) =
        SelectResult.llvm_unreachable "Unknown scope!" := by
    simp [Select, h, h1, h2]
  exact ⟨hsel, by rw [hsel]; rfl⟩

/-- Witness for C8 at concrete ssid 2. -/
theorem fence_unknown_scope_unreachable_witness :
    ((⟨true, true, false, false⟩ : WebAssemblySubtarget).hasAtomics = true ∧
      (2 : Nat) ≠ SyncScope.SingleThread ∧ (2 : Nat) ≠ SyncScope.System) ∧
    Select ⟨true, true, false, false⟩ (SDNode.atomicFence 4 0 2) =
      SelectResult.llvm_unreachable "Unknown scope!" :=
  ⟨⟨rfl, by decide, by decide⟩,
    (fence_unknown_scope_unreachable ⟨true, true, false, false⟩ 4 0 2 rfl
      (by decide) (by decide)).1⟩

/-- C10: on a target without atomics support, the custom rule declines an
atomic fence node of any scope: no replacement, no fatal diagnostic, and
the node falls through to the table-driven matcher (`SelectCode`). -/
theorem fence_no_atomics_fallthrough
    (Subtarget : WebAssemblySubtarget) (inchain : SDValue) (order ssid : Nat)
    (h : Subtarget.hasAtomics = false) :
    Select Subtarget (SDNode.atomicFence inchain order ssid) =
      SelectResult.selectCode ∧
    (Select Subtarget (SDNode.atomicFence inchain order ssid)).isReplacement =
      false ∧
    (Select Subtarget (SDNode.atomicFence inchain order ssid)).isFatal =
      false := by
  have hsel :
      Select Subtarget (SDNode.atomicFence inchain order ssid) =
        SelectResult.selectCode := by
    simp [Select, h]
  exact ⟨hsel, by rw [hsel]; rfl, by rw [hsel]; rfl⟩

/-- Witness for C10 at a concrete target with atomics disabled. -/
theorem fence_no_atomics_fallthrough_witness :
    (⟨false, true, false, false⟩ : WebAssemblySubtarget).hasAtomics = false ∧
    Select ⟨false, true, false, false⟩
        (SDNode.atomicFence 9 0 SyncScope.SingleThread) =
      SelectResult.selectCode :=
  ⟨rfl,
    (fence_no_atomics_fallthrough ⟨false, true, false, false⟩ 9 0
      SyncScope.SingleThread rfl).1⟩

/-- C3 counterexample: on a target without bulk memory, the
thread-local-size intrinsic is still lowered to a read of `__tls_size`
and no fatal diagnostic is raised, so the intrinsics do not apply the
bulk-memory feature gate that thread-local address resolution applies. -/
theorem tls_intrinsic_no_gate_counterexample :
    Select ⟨true, false, false, false⟩
        (SDNode.intrinsicWoChain IntrinsicID.wasm_tls_size []) =
      SelectResult.replaced
        ⟨MachineOpcode.GLOBAL_GET_I32, [MVT.i32],
          [MValue.base (MBase.tsym "__tls_size" MVT.i32)]⟩
        false ∧
    (Select ⟨true, false, false, false⟩
        (SDNode.intrinsicWoChain IntrinsicID.wasm_tls_size [])).isFatal =
      false := by
  exact ⟨rfl, rfl⟩

/-- C3 (amended): the thread-local-block size, alignment, and base-pointer
intrinsics are lowered to reads of the named globals `__tls_size`,
`__tls_align`, and `__tls_base` on every target, without any bulk-memory
feature gate. -/
theorem tls_intrinsics_lower_unconditionally
    (Subtarget : WebAssemblySubtarget) (inchain : SDValue)
    (args : List SDValue) :
    Select Subtarget (SDNode.intrinsicWoChain IntrinsicID.wasm_tls_size args) =
      SelectResult.replaced
        ⟨MachineOpcode.GLOBAL_GET_I32, [MVT.i32],
          [MValue.base (MBase.tsym "__tls_size" MVT.i32)]⟩
        false ∧
    Select Subtarget (SDNode.intrinsicWoChain IntrinsicID.wasm_tls_align args) =
      SelectResult.replaced
        ⟨MachineOpcode.GLOBAL_GET_I32, [MVT.i32],
          [MValue.base (MBase.tsym "__tls_align" MVT.i32)]⟩
        false ∧
    Select Subtarget
        (SDNode.intrinsicWChain inchain IntrinsicID.wasm_tls_base args) =
      SelectResult.replaced
        ⟨MachineOpcode.GLOBAL_GET_I32, [MVT.i32, MVT.Other],
          [MValue.base (MBase.tsym "__tls_base" MVT.i32),
           MValue.base (MBase.existing inchain)]⟩
        false :=
  ⟨rfl, rfl, rfl⟩

/-- C4: a thread-local-address node on a target without bulk memory raises
the fatal bulk-memory diagnostic and installs no replacement. -/
theorem tls_without_bulk_memory_fatal
    (Subtarget : WebAssemblySubtarget) (GA : GlobalVariable) (offset : Int)
    (h : Subtarget.hasBulkMemory = false) :
    Select Subtarget (SDNode.globalTLSAddress GA offset) =
      SelectResult.fatal "cannot use thread-local storage without bulk memory" ∧
    (Select Subtarget (SDNode.globalTLSAddress GA offset)).isReplacement =
      false := by
  have hsel :
      Select Subtarget (SDNode.globalTLSAddress GA offset) =
        SelectResult.fatal
          "cannot use thread-local storage without bulk memory" := by
    simp [Select, h]
  exact ⟨hsel, by rw [hsel]; rfl⟩

/-- Witness for C4 at a concrete target and global. -/
theorem tls_without_bulk_memory_fatal_witness :
    (⟨true, false, false, false⟩ : WebAssemblySubtarget).hasBulkMemory =
      false ∧
    Select ⟨true, false, false, false⟩
        (SDNode.globalTLSAddress ⟨"g", TLSModel.LocalExec⟩ 0) =
      SelectResult.fatal "cannot use thread-local storage without bulk memory" :=
  ⟨rfl,
    (tls_without_bulk_memory_fatal ⟨true, false, false, false⟩
      ⟨"g", TLSModel.LocalExec⟩ 0 rfl).1⟩

/-- C5 counterexample: a thread-local variable with a non-local-exec model
on a non-Emscripten target whose subtarget also lacks bulk memory hits the
bulk-memory fatal first, so the diagnostic does not name the variable. -/
theorem tls_model_gate_counterexample :
    Select ⟨true, false, false, false⟩
        (SDNode.globalTLSAddress ⟨"myvar", TLSModel.GeneralDynamic⟩ 0) =
      SelectResult.fatal "cannot use thread-local storage without bulk memory" ∧
    Select ⟨true, false, false, false⟩
        (SDNode.globalTLSAddress ⟨"myvar", TLSModel.GeneralDynamic⟩ 0) ≠
      SelectResult.fatal
        ("only -ftls-model=local-exec is supported for now on non-Emscripten OSes: variable "
          ++ "myvar") := by
  constructor
  · rfl
  · decide

/-- C5 (amended): on a target with bulk memory, a thread-local-address
node whose variable requests a model other than local-exec, when the OS is
not Emscripten, raises a fatal diagnostic naming the offending variable
and installs no replacement. -/
theorem tls_nonlocalexec_fatal_names_variable
    (Subtarget : WebAssemblySubtarget) (GA : GlobalVariable) (offset : Int)
    (hbulk : Subtarget.hasBulkMemory = true)
    (hmodel : GA.threadLocalMode ≠ TLSModel.LocalExec)
    (hos : Subtarget.isOSEmscripten = false) :
    Select Subtarget (SDNode.globalTLSAddress GA offset) =
      SelectResult.fatal
        ("only -ftls-model=local-exec is supported for now on non-Emscripten OSes: variable "
          ++ GA.name) ∧
    (Select Subtarget (SDNode.globalTLSAddress GA offset)).isReplacement =
      false := by
  have hsel :
      Select Subtarget (SDNode.globalTLSAddress GA offset) =
        SelectResult.fatal
          ("only -ftls-model=local-exec is supported for now on non-Emscripten OSes: variable "
            ++ GA.name) := by
    simp [Select, hbulk, hmodel, hos]
  exact ⟨hsel, by rw [hsel]; rfl⟩

/-- Witness for C5 (amended) at a concrete target and global. -/
theorem tls_nonlocalexec_fatal_names_variable_witness :
    ((⟨true, true, false, false⟩ : WebAssemblySubtarget).hasBulkMemory = true ∧
      (⟨"myvar", TLSModel.GeneralDynamic⟩ : GlobalVariable).threadLocalMode ≠
        TLSModel.LocalExec ∧
      (⟨true, true, false, false⟩ : WebAssemblySubtarget).isOSEmscripten =
        false) ∧
    Select ⟨true, true, false, false⟩
        (SDNode.globalTLSAddress ⟨"myvar", TLSModel.GeneralDynamic⟩ 0) =
      SelectResult.fatal
        ("only -ftls-model=local-exec is supported for now on non-Emscripten OSes: variable "
          ++ "myvar") :=
  ⟨⟨rfl, by decide, rfl⟩,
    (tls_nonlocalexec_fatal_names_variable ⟨true, true, false, false⟩
      ⟨"myvar", TLSModel.GeneralDynamic⟩ 0 rfl (by decide) rfl).1⟩

/-- C6: on a supported configuration (bulk memory available, and either
local-exec model or Emscripten OS), a thread-local-address node is
replaced by an `ADD_I32` of a `GLOBAL_GET_I32` of `__tls_base` and a
`CONST_I32` holding the target global address of the variable at its
static offset; and redirecting the users of the replaced value leaves no
occurrence of the old value in any user operand list. -/
theorem tls_success_sequence
    (Subtarget : WebAssemblySubtarget) (GA : GlobalVariable) (offset : Int)
    (users : List (List SDValue)) (oldV newV : SDValue)
    (hbulk : Subtarget.hasBulkMemory = true)
    (hok : GA.threadLocalMode = TLSModel.LocalExec ∨
      Subtarget.isOSEmscripten = true)
    (hne : oldV ≠ newV) :
    Select Subtarget (SDNode.globalTLSAddress GA offset) =
      SelectResult.replaced
        ⟨MachineOpcode.ADD_I32, [MVT.i32],
          [MValue.sub
            ⟨MachineOpcode.GLOBAL_GET_I32, [MVT.i32],
              [MBase.tsym "__tls_base" MVT.i32]⟩ 0,
           MValue.sub
            ⟨MachineOpcode.CONST_I32, [MVT.i32],
              [MBase.tglobal GA.name offset MVT.i32]⟩ 0]⟩
        false ∧
    ∀ ops ∈ ReplaceNodeUses oldV newV users, oldV ∉ ops := by
  refine ⟨?_, ?_⟩
  · rcases hok with hm | he
    · simp [Select, hbulk, hm]
    · simp [Select, hbulk, he]
  · intro ops hops
    rcases List.mem_map.mp hops with ⟨ops0, _, rfl⟩
    intro hmem
    rcases List.mem_map.mp hmem with ⟨v, _, hv⟩
    by_cases hveq : v = oldV
    · rw [hveq] at hv
      simp at hv
      exact hne hv.symm
    · rw [if_neg hveq] at hv
      exact hveq hv

/-- Witness for C6 at a concrete target, global, user list and values. -/
theorem tls_success_sequence_witness :
    ((⟨true, true, false, false⟩ : WebAssemblySubtarget).hasBulkMemory = true ∧
      ((⟨"tlsv", TLSModel.LocalExec⟩ : GlobalVariable).threadLocalMode =
          TLSModel.LocalExec ∨
        (⟨true, true, false, false⟩ : WebAssemblySubtarget).isOSEmscripten =
          true) ∧
      (4 : SDValue) ≠ (11 : SDValue)) ∧
    (Select ⟨true, true, false, false⟩
        (SDNode.globalTLSAddress ⟨"tlsv", TLSModel.LocalExec⟩ 8) =
      SelectResult.replaced
        ⟨MachineOpcode.ADD_I32, [MVT.i32],
          [MValue.sub
            ⟨MachineOpcode.GLOBAL_GET_I32, [MVT.i32],
              [MBase.tsym "__tls_base" MVT.i32]⟩ 0,
           MValue.sub
            ⟨MachineOpcode.CONST_I32, [MVT.i32],
              [MBase.tglobal "tlsv" 8 MVT.i32]⟩ 0]⟩
        false ∧
    ∀ ops ∈ ReplaceNodeUses 4 11 [[4, 2], [3, 4]], (4 : SDValue) ∉ ops) :=
  ⟨⟨rfl, Or.inl rfl, by decide⟩,
    tls_success_sequence ⟨true, true, false, false⟩
      ⟨"tlsv", TLSModel.LocalExec⟩ 8 [[4, 2], [3, 4]] 4 11 rfl (Or.inl rfl)
      (by decide)⟩

/-- C7: binding an inline-assembly operand with constraint class `i` or
`m` succeeds (C++ return value `false`) and emits exactly the single
existing operand; any other constraint class reports failure for that use
site (C++ return value `true`) without touching the operand list and
without raising a fatal diagnostic. -/
theorem inline_asm_constraint_binding (Op : SDValue) (CID : ConstraintID) :
    ((CID = ConstraintID.i ∨ CID = ConstraintID.m) →
      SelectInlineAsmMemoryOperand Op CID [] = (false, [Op])) ∧
    (∀ n, CID = ConstraintID.otherConstraint n →
      SelectInlineAsmMemoryOperand Op CID [] = (true, [])) := by
  constructor
  · rintro (rfl | rfl) <;> rfl
  · rintro n rfl
    rfl

/-- Witness for C7 at a concrete operand and the three constraint kinds. -/
theorem inline_asm_constraint_binding_witness :
    SelectInlineAsmMemoryOperand 6 ConstraintID.i [] = (false, [6]) ∧
    SelectInlineAsmMemoryOperand 6 ConstraintID.m [] = (false, [6]) ∧
    SelectInlineAsmMemoryOperand 6 (ConstraintID.otherConstraint 0) [] =
      (true, []) :=
  ⟨(inline_asm_constraint_binding 6 ConstraintID.i).1 (Or.inl rfl),
   (inline_asm_constraint_binding 6 ConstraintID.m).1 (Or.inr rfl),
   (inline_asm_constraint_binding 6 (ConstraintID.otherConstraint 0)).2 0 rfl⟩

/-- A node that already carries a machine opcode is skipped by `Select`. -/
theorem Select_of_isMachineOpcode (Subtarget : WebAssemblySubtarget)
    (n : SDNode) (h : n.isMachineOpcode = true) :
    Select Subtarget n = SelectResult.alreadySelected := by
  cases n <;> simp_all [SDNode.isMachineOpcode, Select]

/-- C9: a node already carrying a machine opcode is a no-op for the
selector (no replacement is installed), and running the selector over a
fully finalized node list performs zero replacements and succeeds. -/
theorem finalized_nodes_noop (Subtarget : WebAssemblySubtarget)
    (op : MachineOpcode) (operands : List SDValue) (nodes : List SDNode)
    (h : ∀ n ∈ nodes, n.isMachineOpcode = true) :
    Select Subtarget (SDNode.machine op operands) =
      SelectResult.alreadySelected ∧
    countReplacements Subtarget nodes = 0 ∧
    driverSucceeds Subtarget nodes = true := by
  refine ⟨rfl, ?_, ?_⟩
  · have hnone : ∀ n ∈ nodes, ¬((Select Subtarget n).isReplacement = true) := by
      intro n hn
      rw [Select_of_isMachineOpcode Subtarget n (h n hn)]
      intro hc
      exact absurd hc (by simp [SelectResult.isReplacement])
    unfold countReplacements
    rw [List.filter_eq_nil_iff.mpr hnone]
    rfl
  · rw [driverSucceeds, List.all_eq_true]
    intro n hn
    rw [Select_of_isMachineOpcode Subtarget n (h n hn)]
    rfl

/-- Witness for C9 at a concrete finalized node list. -/
theorem finalized_nodes_noop_witness :
    (∀ n ∈ [SDNode.machine MachineOpcode.ADD_I32 [1, 2],
            SDNode.machine MachineOpcode.CONST_I32 []],
      n.isMachineOpcode = true) ∧
    (Select ⟨true, true, false, false⟩
        (SDNode.machine MachineOpcode.ADD_I32 [1, 2]) =
      SelectResult.alreadySelected ∧
    countReplacements ⟨true, true, false, false⟩
        [SDNode.machine MachineOpcode.ADD_I32 [1, 2],
         SDNode.machine MachineOpcode.CONST_I32 []] = 0 ∧
    driverSucceeds ⟨true, true, false, false⟩
        [SDNode.machine MachineOpcode.ADD_I32 [1, 2],
         SDNode.machine MachineOpcode.CONST_I32 []] = true) :=
  ⟨by decide,
    finalized_nodes_noop ⟨true, true, false, false⟩ MachineOpcode.ADD_I32
      [1, 2]
      [SDNode.machine MachineOpcode.ADD_I32 [1, 2],
       SDNode.machine MachineOpcode.CONST_I32 []]
      (by decide)⟩

end WasmISel
